import Mathlib

/-!
Verification development for the bacterial-resistance repository
(`src/contigDataset.py` and `src/model.py`).

The Python code is shallowly embedded: numpy/TF tensors become lists or
`Fin`-indexed functions over `ℝ`, Python dynamic failures (assertion errors,
attribute errors, tensor shape mismatches) become `Option`/`none`, and the
numpy random generator is an abstract deterministic state machine passed in
as a parameter (its in-place `shuffle` becomes a function returning the
shuffled list together with the successor state).
-/

set_option maxHeartbeats 1000000

/-! ### Module-level constants of `src/model.py` -/

def embed_dim : ℕ := 4

def sequence_target_length : ℕ := 100

def conv_filters_1 : ℕ := 12

def conv_window_length_1 : ℕ := 8

def pool_size_1 : ℕ := 8

def dense_units_1 : ℕ := 32

def dense_units_2 : ℕ := 64

noncomputable def dropout_probability : ℝ := 1/2

/-! ### `masked_lengths` (src/model.py, lines 48-52) -/

/-- `tf.math.argmax` on a boolean row: the index of the first occurrence of
the maximum value (`True` counts as 1, `False` as 0); an all-false row has
maximum 0 whose first occurrence is index 0. -/
def argmaxBool : List Bool → ℕ
  | [] => 0
  | true :: _ => 0
  | false :: t => if true ∈ t then argmaxBool t + 1 else 0

/-- `masked_lengths(mask) = tf.shape(mask)[1] - argmax(mask[:, ::-1], axis=1)`,
per row of the 2-D boolean mask. -/
def masked_lengths (mask : List (List Bool)) : List ℕ :=
  mask.map (fun row => row.length - argmaxBool row.reverse)

/-! ### Keras helpers used by `src/contigDataset.py` -/

/-- `tf.keras.preprocessing.sequence.pad_sequences(seqs, maxlen, padding='post',
truncating='post')` with padding value 0: when `maxlen` is `none` the longest
sequence length is used; each sequence is truncated to the first `maxlen`
elements and zero-padded at the end up to `maxlen`. -/
def pad_sequences (maxlen : Option ℕ) (seqs : List (List ℤ)) : List (List ℤ) :=
  let L := maxlen.getD ((seqs.map List.length).foldr max 0)
  seqs.map (fun s => s.take L ++ List.replicate (L - s.length) (0 : ℤ))

/-- `tf.keras.utils.to_categorical(ys, num_classes)`: one-hot rows; a missing
class count is inferred as `max(ys) + 1`. -/
def to_categorical (num_classes : Option ℕ) (ys : List ℕ) : List (List ℕ) :=
  let n := num_classes.getD ((ys.foldr max 0) + 1)
  ys.map (fun y => (List.range n).map (fun i => if i = y then 1 else 0))

/-! ### The contig parser interface and `__data_generation` -/

/-- A pre-built parser instance: it declares a dimensionality `ndims` and is
callable on `(id, fullpath)`.  The parser contract (spec section 6) fixes the
output to a 1-D array when `ndims = 1` and a 2-D array when `ndims = 2`;
the two cases are the two run functions. -/
structure ContigParser where
  ndims : ℕ
  parse1 : ℕ → String → List ℤ
  parse2 : ℕ → String → List (List ℤ)

/-- `os.path.join(folder, path)` for the relative paths this pipeline uses. -/
def joinPath (folder p : String) : String := folder ++ "/" ++ p

/-- Default used for out-of-range path lookups in the embedding. -/
def emptyPath : String := ""

/-- The feature half of one generated batch: a 2-D array when the parser is
1-D, a list of 2-D arrays when the parser is 2-D. -/
inductive BatchX where
  | x1 : List (List ℤ) → BatchX
  | x2 : List (List (List ℤ)) → BatchX

/-- Number of samples in the feature half of a batch. -/
def BatchX.size : BatchX → ℕ
  | BatchX.x1 l => l.length
  | BatchX.x2 l => l.length

/-- `ContigDataGenerator.__data_generation` (src/contigDataset.py lines
93-113).  The leading `assert self.parser.ndims in [1, 2]` is the outer
guard; a failing assertion produces no batch (`none`). -/
def data_generation (parser : ContigParser) (folder : String) (paths : List String)
    (labels : List ℕ) (sequence_length : Option ℕ) (n_classes : Option ℕ)
    (ids : List ℕ) : Option (BatchX × List (List ℕ)) :=
  if parser.ndims = 1 ∨ parser.ndims = 2 then
    let y := to_categorical n_classes (ids.map (fun id => labels.getD id 0))
    if parser.ndims = 1 then
      some (BatchX.x1 (pad_sequences sequence_length
        (ids.map (fun id => parser.parse1 id (joinPath folder (paths.getD id emptyPath))))), y)
    else
      some (BatchX.x2 ((ids.map (fun id =>
        parser.parse2 id (joinPath folder (paths.getD id emptyPath)))).map
          (pad_sequences sequence_length)), y)
  else none

/-! ### `ContigDataGenerator` (src/contigDataset.py)

The numpy generator `np.random.default_rng(random_state)` is abstracted as a
state of type `σ`; its in-place `rg.shuffle(indexes)` is a pure function
`f : σ → List ℕ → List ℕ × σ` returning the shuffled list and the advanced
state.  `self.indexes`, which the Python class only ever assigns inside
`on_epoch_end` under `if self.shuffle`, is an `Option`: `none` models the
attribute never having been set (an `AttributeError` on access). -/

structure ContigDataGenerator (σ : Type) where
  paths : List String
  labels : List ℕ
  folder : String
  parser : ContigParser
  batch_size : ℕ
  sequence_length : Option ℕ
  n_classes : Option ℕ
  shuffle : Bool
  rg : Option σ
  indexes : Option (List ℕ)

/-- `on_epoch_end` (lines 87-91): if shuffling, a fresh `arange(len(labels))`
is shuffled by the held generator state, which advances in place. -/
def ContigDataGenerator.on_epoch_end {σ : Type} (f : σ → List ℕ → List ℕ × σ)
    (g : ContigDataGenerator σ) : ContigDataGenerator σ :=
  if g.shuffle then
    match g.rg with
    | some s =>
        { g with
          indexes := some (f s (List.range g.labels.length)).1,
          rg := some (f s (List.range g.labels.length)).2 }
    | none => g
  else g

/-- `__init__` (lines 57-71): stores the fields, creates the random generator
from the seed only when `shuffle` is set, and ends with a call to
`on_epoch_end`.  `mkRng` models `np.random.default_rng`, a deterministic
function of the optional seed. -/
def ContigDataGenerator.init {σ : Type} (f : σ → List ℕ → List ℕ × σ)
    (mkRng : Option ℕ → σ) (paths : List String) (labels : List ℕ)
    (folder : String) (parser : ContigParser) (batch_size : ℕ)
    (sequence_length : Option ℕ) (n_classes : Option ℕ) (shuffle : Bool)
    (random_state : Option ℕ) : ContigDataGenerator σ :=
  ContigDataGenerator.on_epoch_end f
    { paths := paths
      labels := labels
      folder := folder
      parser := parser
      batch_size := batch_size
      sequence_length := sequence_length
      n_classes := n_classes
      shuffle := shuffle
      rg := if shuffle then some (mkRng random_state) else none
      indexes := none }

/-- `__len__` (lines 73-77): number of batches per epoch. -/
def ContigDataGenerator.len {σ : Type} (g : ContigDataGenerator σ) : ℕ :=
  g.labels.length / g.batch_size

/-- The index slice `self.indexes[index*batch_size : (index+1)*batch_size]`
computed by `__getitem__` (lines 79-85); `none` when `self.indexes` was never
assigned. -/
def ContigDataGenerator.getitemIdxs {σ : Type} (g : ContigDataGenerator σ)
    (index : ℕ) : Option (List ℕ) :=
  match g.indexes with
  | none => none
  | some idxs => some ((idxs.drop (index * g.batch_size)).take g.batch_size)

/-- `__getitem__` (lines 79-85): slice the permutation, then generate data. -/
def ContigDataGenerator.getitem {σ : Type} (g : ContigDataGenerator σ)
    (index : ℕ) : Option (BatchX × List (List ℕ)) :=
  match g.indexes with
  | none => none
  | some idxs =>
      data_generation g.parser g.folder g.paths g.labels g.sequence_length
        g.n_classes ((idxs.drop (index * g.batch_size)).take g.batch_size)

/-- `k` successive epoch resets, as Keras performs between epochs. -/
def epochIter {σ : Type} (f : σ → List ℕ → List ℕ × σ) :
    ℕ → ContigDataGenerator σ → ContigDataGenerator σ
  | 0, g => g
  | k + 1, g => epochIter f k (ContigDataGenerator.on_epoch_end f g)

/-! ### Layer primitives used by `CNNModel` (src/model.py)

Tensors whose last axis has a statically known channel count become
`Fin c → ℝ`; a sequence of positions becomes a `List` of such channel
vectors.  Floating point is idealised as `ℝ` (the spec's stated non-goal is
bit-exact float reproduction). -/

/-- ReLU activation. -/
noncomputable def relu (x : ℝ) : ℝ := max x 0

/-- A Keras `Dense(b)` layer on an `a`-channel input: affine map followed by
the activation, applied along the last axis. -/
noncomputable def denseL {a b : ℕ} (W : Fin b → Fin a → ℝ) (bias : Fin b → ℝ)
    (act : ℝ → ℝ) (x : Fin a → ℝ) : Fin b → ℝ :=
  fun i => act (bias i + ∑ j, W i j * x j)

/-- Softmax activation over the class axis. -/
noncomputable def softmax {n : ℕ} (v : Fin n → ℝ) : Fin n → ℝ :=
  fun i => Real.exp (v i) / ∑ j, Real.exp (v j)

/-- Maximum of a list of reals (`tf.reduce_max`); the empty case never occurs
in the pipeline (the resizer fixes a positive width) and is given value 0. -/
noncomputable def listMax : List ℝ → ℝ
  | [] => 0
  | h :: t => t.foldl max h

/-- `Conv1D` with `padding='valid'`, bias, and ReLU activation: output
position `j` convolves input positions `j .. j+k-1`. -/
noncomputable def conv1D {cin F k : ℕ} (K : Fin F → Fin k → Fin cin → ℝ)
    (b : Fin F → ℝ) (xs : List (Fin cin → ℝ)) : List (Fin F → ℝ) :=
  (List.range (xs.length + 1 - k)).map (fun j i =>
    relu (b i + ∑ p : Fin k, ∑ c : Fin cin,
      K i p c * xs.getD (j + p.val) (fun _ => 0) c))

/-- `MaxPool1D(pool_size)` with the default stride equal to the pool size and
`'valid'` padding. -/
noncomputable def maxPool1D {c : ℕ} (pool : ℕ) (xs : List (Fin c → ℝ)) :
    List (Fin c → ℝ) :=
  (List.range (xs.length / pool)).map (fun j i =>
    listMax ((List.range pool).map (fun p => xs.getD (j * pool + p) (fun _ => 0) i)))

/-- `GlobalMaxPooling1D`: maximum over the position axis, per channel. -/
noncomputable def globalMaxPool {c : ℕ} (xs : List (Fin c → ℝ)) : Fin c → ℝ :=
  fun i => listMax (xs.map (fun v => v i))

/-- `GlobalAveragePooling1D`: unweighted mean over the position axis (here,
over the nodes of a contig), per channel. -/
noncomputable def globalAveragePool {c : ℕ} (xs : List (Fin c → ℝ)) : Fin c → ℝ :=
  fun i => (xs.map (fun v => v i)).sum / (xs.length : ℝ)

/-- `Dropout(rate)`: identity at inference; at training time each unit is
kept (and rescaled by `1/(1-rate)`) or zeroed according to the random
Bernoulli draw `keep`, which is passed in explicitly. -/
noncomputable def dropoutL (training : Bool) (keep : Fin dense_units_2 → Bool)
    (x : Fin dense_units_2 → ℝ) : Fin dense_units_2 → ℝ :=
  if training then
    (fun i => if keep i then x i / (1 - dropout_probability) else 0)
  else x

/-- One output row of TF bilinear image resizing with half-pixel centers
(`tf.image.resize` as used by the `Resizing` layer): output index `i` reads
the source coordinate `(i + 1/2) * W / target - 1/2` and linearly
interpolates its two clamped integer neighbours. -/
noncomputable def resizeBilinear {c : ℕ} (target : ℕ) (xs : List (Fin c → ℝ)) :
    List (Fin c → ℝ) :=
  (List.range target).map (fun i ch =>
    let inX : ℝ := ((i : ℝ) + 1/2) * (xs.length : ℝ) / (target : ℝ) - 1/2
    let lo : ℤ := max ⌊inX⌋ 0
    let hi : ℤ := min ⌈inX⌉ ((xs.length : ℤ) - 1)
    let w : ℝ := inX - (⌊inX⌋ : ℝ)
    (1 - w) * xs.getD lo.toNat (fun _ => 0) ch + w * xs.getD hi.toNat (fun _ => 0) ch)

/-- `Resizing1D.call` (src/model.py lines 80-109) on one contig's stack of
embedded nodes.  With a mask (the dense path), each node is first cropped to
its `masked_lengths` true length and then resized; without one (the ragged
path and the maskless dense path), each node is resized directly. -/
noncomputable def resizing1D_call {c : ℕ} (target : ℕ)
    (inputs : List (List (Fin c → ℝ))) (mask : Option (List (List Bool))) :
    List (List (Fin c → ℝ)) :=
  match mask with
  | some m =>
      (inputs.zip (masked_lengths m)).map
        (fun sl => resizeBilinear target (sl.1.take sl.2))
  | none => inputs.map (resizeBilinear target)

/-! ### `CNNModel` -/

/-- The trainable tensors owned by the model's layers. -/
structure ModelWeights (voc_size n_classes : ℕ) where
  embedW : Fin voc_size → Fin embed_dim → ℝ
  convK : Fin conv_filters_1 → Fin conv_window_length_1 → Fin embed_dim → ℝ
  convB : Fin conv_filters_1 → ℝ
  w1 : Fin dense_units_1 → Fin conv_filters_1 → ℝ
  b1 : Fin dense_units_1 → ℝ
  w2 : Fin dense_units_2 → Fin dense_units_1 → ℝ
  b2 : Fin dense_units_2 → ℝ
  wc : Fin n_classes → Fin dense_units_2 → ℝ
  bc : Fin n_classes → ℝ

/-- `CNNModel` (src/model.py lines 121-196): name, vocabulary size, class
count, and the layer weights (their initial values are irrelevant to the
claims; training mutates them arbitrarily). -/
structure CNNModel where
  name : String
  voc_size : ℕ
  n_classes : ℕ
  weights : ModelWeights voc_size n_classes

/-- The mask produced by `Embedding(mask_zero=True)`: a position is valid iff
its integer symbol is nonzero. -/
def embedMask {v : ℕ} (contig : List (List (Fin v))) : List (List Bool) :=
  contig.map (fun node => node.map (fun s => decide (s.val ≠ 0)))

/-- `CNNModel.__transform_contig` (src/model.py lines 198-246): embed each
node's symbols, resize every node to the fixed target width (using the
propagated zero-symbol mask), convolve, pool, apply the two dense layers
around the global max pool, dropout, the softmax classifier, and finally
vote by averaging the per-node class distributions.  `keep` is the dropout
layer's random keep-draw for each node index. -/
noncomputable def CNNModel.transform_contig (m : CNNModel) (training : Bool)
    (keep : ℕ → Fin dense_units_2 → Bool)
    (contig : List (List (Fin m.voc_size))) : Fin m.n_classes → ℝ :=
  let x1 := contig.map (fun node => node.map m.weights.embedW)
  let x2 := resizing1D_call sequence_target_length x1 (some (embedMask contig))
  let x3 := x2.map (conv1D m.weights.convK m.weights.convB)
  let x4 := x3.map (maxPool1D pool_size_1)
  let x5 := x4.map (List.map (denseL m.weights.w1 m.weights.b1 relu))
  let x6 := x5.map globalMaxPool
  let x7 := x6.map (denseL m.weights.w2 m.weights.b2 relu)
  let x8 := x7.enum.map (fun p => dropoutL training (keep p.1) p.2)
  let x9 := x8.map (fun v => softmax (denseL m.weights.wc m.weights.bc id v))
  globalAveragePool x9

/-- The per-node half of `__transform_contig`: everything before the
averaging vote, specialised to one node with its dropout keep-draw. -/
noncomputable def CNNModel.nodeOutput (m : CNNModel) (training : Bool)
    (keep : Fin dense_units_2 → Bool) (node : List (Fin m.voc_size)) :
    Fin m.n_classes → ℝ :=
  softmax (denseL m.weights.wc m.weights.bc id
    (dropoutL training keep
      (denseL m.weights.w2 m.weights.b2 relu
        (globalMaxPool
          ((maxPool1D pool_size_1
            (conv1D m.weights.convK m.weights.convB
              (resizeBilinear sequence_target_length
                ((node.map m.weights.embedW).take
                  (node.length - argmaxBool (node.map
                    (fun s => decide (s.val ≠ 0))).reverse))))).map
            (denseL m.weights.w1 m.weights.b1 relu))))))

/-- `CNNModel.call` (src/model.py lines 256-278): apply the per-contig
transform to every contig of the batch independently via `tf.map_fn`, whose
`fn_output_signature` is the hard-coded shape `[2]`.  A per-contig output of
any other length makes `map_fn` reject the element, so a nonempty batch
produces a result only when `n_classes = 2`; `keep` supplies the dropout
draw per contig index and node index. -/
noncomputable def CNNModel.call (m : CNNModel) (training : Bool)
    (keep : ℕ → ℕ → Fin dense_units_2 → Bool)
    (inputs : List (List (List (Fin m.voc_size)))) :
    Option (List (Fin m.n_classes → ℝ)) :=
  if inputs.isEmpty ∨ m.n_classes = 2 then
    some (inputs.enum.map (fun p => m.transform_contig training (keep p.1) p.2))
  else none

/-! ### Model configuration (`get_config` / `from_config`) -/

def interpBilinear : String := "bilinear"

/-- The configuration payload each owned layer reports via `get_config`. -/
inductive LayerSpec where
  | embedding : ℕ → ℕ → LayerSpec
  | resizing1d : ℕ → String → LayerSpec
  | conv1d : ℕ → ℕ → LayerSpec
  | maxpool1d : ℕ → LayerSpec
  | globalmaxpool : LayerSpec
  | dense : ℕ → LayerSpec
  | dropoutCfg : ℚ → LayerSpec
  | globalavgpool : LayerSpec

/-- The bare dictionary a layer's own `get_config()` returns: its name plus
its hyperparameters. -/
structure KLayer where
  name : String
  spec : LayerSpec

/-- One entry of the stored `layers` list.  Keras serialization distinguishes
the bare `layer.get_config()` dictionary from the deserializable wrapper
`{'class_name': ..., 'config': ...}`; `class_name := none` models a bare
entry, which is the only kind `CNNModel.get_config` ever stores (it calls
`layer.get_config()` directly, never `tf.keras.layers.serialize`).  The
`name` key that `from_config` indexes on is taken from the layer config. -/
structure StoredLayer where
  class_name : Option String
  cfg : KLayer

/-- The `layer_config["name"]` lookup used to key the `layer_configs`
dictionary. -/
def StoredLayer.name (c : StoredLayer) : String := c.cfg.name

/-- The dictionary returned by `CNNModel.get_config` (lines 280-286). -/
structure ModelConfig where
  name : String
  n_classes : ℕ
  voc_size : ℕ
  layers : List StoredLayer

/-- The Keras built-in layer class names this model uses; the custom
`Resizing1D` is not among them (it is not registered with Keras), so
deserializing it needs `custom_objects`. -/
def kerasBuiltinLayerClasses : List String :=
  ["Embedding", "Conv1D", "MaxPooling1D", "GlobalMaxPooling1D", "Dense",
   "Dropout", "GlobalAveragePooling1D"]

/-- `tf.keras.layers.deserialize(layer_config, custom_objects)`: a bare
config dictionary (no `class_name`/`config` wrapper keys) raises
`ValueError: Improper config format`; a wrapped entry succeeds only when its
class name resolves to a Keras built-in or a member of `custom_objects`
(otherwise `ValueError: Unknown layer`). -/
def kerasLayersDeserialize (custom_objects : List String) (c : StoredLayer) :
    Option KLayer :=
  match c.class_name with
  | none => none
  | some cn =>
      if cn ∈ kerasBuiltinLayerClasses ∨ cn ∈ custom_objects then some c.cfg
      else none

/-- `model.layers` in creation order, with the names fixed by `__init__`
(`MaxPool1D` is the only unnamed layer and keeps its Keras default name). -/
def CNNModel.layerList (m : CNNModel) : List KLayer :=
  [⟨"embed_layer", LayerSpec.embedding m.voc_size embed_dim⟩,
   ⟨"resizer", LayerSpec.resizing1d sequence_target_length interpBilinear⟩,
   ⟨"conv1", LayerSpec.conv1d conv_filters_1 conv_window_length_1⟩,
   ⟨"max_pooling1d", LayerSpec.maxpool1d pool_size_1⟩,
   ⟨"globalmaxpool", LayerSpec.globalmaxpool⟩,
   ⟨"dense1", LayerSpec.dense dense_units_1⟩,
   ⟨"dense2", LayerSpec.dense dense_units_2⟩,
   ⟨"dropout", LayerSpec.dropoutCfg (1/2)⟩,
   ⟨"classifier", LayerSpec.dense m.n_classes⟩,
   ⟨"globalaveragepool", LayerSpec.globalavgpool⟩]

/-- `CNNModel.get_config` (lines 280-286): the stored `layers` list holds the
bare per-layer `layer.get_config()` dictionaries (deep-copied, which a pure
value needs no model of), without the `class_name` serialization wrapper. -/
def CNNModel.get_config (m : CNNModel) : ModelConfig :=
  ⟨m.name, m.n_classes, m.voc_size, m.layerList.map (fun l => ⟨none, l⟩)⟩

/-- The fresh model `cls(name=..., voc_size=..., n_classes=...)` built at the
top of `from_config`; `w` stands for whatever the random initializers
produce. -/
def CNNModel.rebuild (c : ModelConfig) (w : ModelWeights c.voc_size c.n_classes) :
    CNNModel :=
  ⟨c.name, c.voc_size, c.n_classes, w⟩

/-- `CNNModel.from_config` (lines 288-304): rebuild a fresh model, then, for
every one of its layers, look the layer's name up in the `layer_configs`
dictionary (a missing name is a `KeyError`; with duplicate names the last
stored entry wins, hence the reversed `find?`) and pass the found entry to
`tf.keras.layers.deserialize` (which raises on a bare config dictionary or an
unresolvable class name).  Any raise is `none`.  When every lookup and
deserialization succeeds the fresh model is returned: the loop's
`model.layers[idx] = ...` assignment writes into the fresh list returned by
the Keras `layers` property, so the deserialized layers do not alter the
returned model. -/
def CNNModel.from_config (c : ModelConfig) (custom_objects : List String)
    (w : ModelWeights c.voc_size c.n_classes) : Option CNNModel :=
  let model := CNNModel.rebuild c w
  if model.layerList.all (fun l =>
      match c.layers.reverse.find? (fun c2 => c2.name = l.name) with
      | none => false
      | some entry => (kerasLayersDeserialize custom_objects entry).isSome) then
    some model
  else none

/-! ### Spec-side definition for the padding refinement, and concrete
instances used by witnesses -/

/-- The spec's description of the post-padding of one sample: content kept
unchanged as the leading part, pad value in all remaining trailing positions;
a sample longer than the width keeps its first `L` elements. -/
def padSpecPost (L : ℕ) (s : List ℤ) : List ℤ :=
  if s.length ≤ L then s ++ List.replicate (L - s.length) (0 : ℤ) else s.take L

/-- A trivially deterministic shuffle state machine over `ℕ` states: returns
the list unchanged and advances the state. -/
def idShuffle : ℕ → List ℕ → List ℕ × ℕ := fun s l => (l, s + 1)

/-- A demo `np.random.default_rng`: the state is the seed itself. -/
def demoMkRng : Option ℕ → ℕ := fun o => o.getD 0

def demoFolder : String := "contigs"

def demoPaths : List String := []

def demoParser1 : ContigParser :=
  ⟨1, fun _ _ => [1, 2], fun _ _ => [[1], [2, 3]]⟩

def demoParser2 : ContigParser :=
  ⟨2, fun _ _ => [1, 2], fun _ _ => [[1, 2], [3]]⟩

def demoParser0 : ContigParser :=
  ⟨0, fun _ _ => [], fun _ _ => []⟩

def demoLabels33 : List ℕ := List.replicate 33 0

def demoLabels4 : List ℕ := [0, 1, 0, 1]

noncomputable def zeroWeights : ModelWeights 5 2 :=
  ⟨fun _ _ => 0, fun _ _ _ => 0, fun _ => 0, fun _ _ => 0, fun _ => 0,
   fun _ _ => 0, fun _ => 0, fun _ _ => 0, fun _ => 0⟩

/-- A two-class model with the default sizes of `CNNModel.__init__`. -/
noncomputable def demoModel : CNNModel := ⟨"cnnmodel", 5, 2, zeroWeights⟩

noncomputable def zeroWeights3 : ModelWeights 5 3 :=
  ⟨fun _ _ => 0, fun _ _ _ => 0, fun _ => 0, fun _ _ => 0, fun _ => 0,
   fun _ _ => 0, fun _ => 0, fun _ _ => 0, fun _ => 0⟩

/-- A three-class model, as `CNNModel(n_classes=3)` would build. -/
noncomputable def threeClassModel : CNNModel := ⟨"cnnmodel", 5, 3, zeroWeights3⟩

def demoKeepNode : Fin dense_units_2 → Bool := fun _ => true

def demoKeep : ℕ → Fin dense_units_2 → Bool := fun _ _ => true

def demoKeep2 : ℕ → ℕ → Fin dense_units_2 → Bool := fun _ _ _ => true

def demoNode : List (Fin 5) := [1, 2, 0]

def demoContig : List (List (Fin 5)) := [demoNode]

/-- A concrete mid-lifetime generator state with shuffling enabled. -/
def demoGenState : ContigDataGenerator ℕ :=
  ⟨demoPaths, demoLabels4, demoFolder, demoParser1, 2, none, none, true, some 5, none⟩

/-! ## Helper lemmas -/

theorem on_epoch_end_no_shuffle {σ : Type} (f : σ → List ℕ → List ℕ × σ)
    (g : ContigDataGenerator σ) (hs : g.shuffle = false) :
    ContigDataGenerator.on_epoch_end f g = g := by
  simp [ContigDataGenerator.on_epoch_end, hs]

theorem epochIter_no_shuffle {σ : Type} (f : σ → List ℕ → List ℕ × σ)
    (k : ℕ) (g : ContigDataGenerator σ) (hs : g.shuffle = false) :
    epochIter f k g = g := by
  induction k with
  | zero => rfl
  | succ k ih => rw [epochIter, on_epoch_end_no_shuffle f g hs, ih]

theorem on_epoch_end_shuffle {σ : Type} (f : σ → List ℕ → List ℕ × σ)
    (g : ContigDataGenerator σ) (s : σ) (hs : g.shuffle = true)
    (hrg : g.rg = some s) :
    ContigDataGenerator.on_epoch_end f g =
      { g with
        indexes := some (f s (List.range g.labels.length)).1,
        rg := some (f s (List.range g.labels.length)).2 } := by
  simp [ContigDataGenerator.on_epoch_end, hs, hrg]

theorem argmaxBool_replicate_false_true (k L : ℕ) (hL : 1 ≤ L) :
    argmaxBool (List.replicate k false ++ List.replicate L true) = k := by
  induction k with
  | zero =>
      cases L with
      | zero => omega
      | succ n => simp [List.replicate, argmaxBool]
  | succ k ih =>
      have hmem : true ∈ List.replicate k false ++ List.replicate L true :=
        List.mem_append.2 (Or.inr (List.mem_replicate.2 ⟨by omega, rfl⟩))
      simp only [List.replicate, List.cons_append, argmaxBool, List.append_eq]
      rw [if_pos hmem, ih]

/-! ## Claim C3 -/

/-- Claim C3 counterexample: at width `W = 1` and true length `L = 0`
(`L ≤ W`), the mask row is all-false and `masked_lengths` returns the full
width 1, not the true length 0: `argmax` of an all-false row is 0, so the
computed length is `W - 0 = W`. -/
theorem masked_lengths_zero_counterexample :
    masked_lengths [List.replicate 0 true ++ List.replicate (1 - 0) false] ≠ [0] ∧
    masked_lengths [List.replicate 0 true ++ List.replicate (1 - 0) false] = [1] := by
  constructor
  · decide
  · decide

/-- Claim C3 (amended): for every width `W` and every true length `L` with
`1 ≤ L ≤ W`, `masked_lengths` applied to a mask row whose first `L` positions
are `True` and whose remaining `W - L` are `False` returns exactly `L` —
width minus the reversed index of the first `True` counted from the end. -/
theorem masked_lengths_recovers_true_length (W L : ℕ) (h1 : 1 ≤ L) (h2 : L ≤ W) :
    masked_lengths [List.replicate L true ++ List.replicate (W - L) false] = [L] := by
  simp only [masked_lengths, List.map_cons, List.map_nil, List.reverse_append,
    List.reverse_replicate]
  rw [argmaxBool_replicate_false_true (W - L) L h1]
  simp only [List.length_append, List.length_replicate, List.cons.injEq, and_true]
  omega

/-- Witness for C3 (amended) at `W = 5`, `L = 2`. -/
theorem masked_lengths_recovers_true_length_witness :
    (1 ≤ 2 ∧ 2 ≤ 5) ∧
    masked_lengths [List.replicate 2 true ++ List.replicate (5 - 2) false] = [2] :=
  ⟨⟨by decide, by decide⟩,
   masked_lengths_recovers_true_length 5 2 (by decide) (by decide)⟩

/-! ## Claim C8 -/

/-- Claim C8: batch generation fails (the leading assertion fires, and no
batch data is produced) exactly when the parser's declared dimensionality
lies outside `{1, 2}`. -/
theorem data_generation_fails_iff_bad_ndims (parser : ContigParser)
    (folder : String) (paths : List String) (labels : List ℕ)
    (sequence_length : Option ℕ) (n_classes : Option ℕ) (ids : List ℕ) :
    data_generation parser folder paths labels sequence_length n_classes ids = none ↔
      ¬(parser.ndims = 1 ∨ parser.ndims = 2) := by
  unfold data_generation
  split
  · rename_i h
    split <;> simp [h]
  · rename_i h
    simp [h]

/-! ## Claim C10 -/

/-- Claim C10: a generator constructed with `shuffle=False` never assigns its
index permutation — not at construction nor at any later epoch reset — so
every `__getitem__` access fails on the missing attribute before any parsing,
for every batch index and every epoch. -/
theorem shuffle_false_generator_unusable (σ : Type) (f : σ → List ℕ → List ℕ × σ)
    (mkRng : Option ℕ → σ) (paths : List String) (labels : List ℕ)
    (folder : String) (parser : ContigParser) (batch_size : ℕ)
    (sequence_length : Option ℕ) (n_classes : Option ℕ) (seed : Option ℕ)
    (k index : ℕ) :
    (epochIter f k (ContigDataGenerator.init f mkRng paths labels folder parser
      batch_size sequence_length n_classes false seed)).indexes = none ∧
    (epochIter f k (ContigDataGenerator.init f mkRng paths labels folder parser
      batch_size sequence_length n_classes false seed)).getitem index = none := by
  have hinit : ContigDataGenerator.init f mkRng paths labels folder parser
      batch_size sequence_length n_classes false seed =
      { paths := paths, labels := labels, folder := folder, parser := parser,
        batch_size := batch_size, sequence_length := sequence_length,
        n_classes := n_classes, shuffle := false, rg := none, indexes := none } := by
    unfold ContigDataGenerator.init
    rw [on_epoch_end_no_shuffle] <;> simp
  rw [hinit, epochIter_no_shuffle f k _ rfl]
  exact ⟨rfl, rfl⟩

/-! ## Claim C7 -/

/-- Claim C7: batch padding is always trailing.  Each padded sample equals
the spec's description `padSpecPost`: content kept unchanged as the leading
part with the pad value in all trailing positions when the sample is at most
`sequence_length` long, and the first `sequence_length` elements with the
trailing excess discarded otherwise; for a 2-D parser, `__data_generation`
applies this to every row of every contig. -/
theorem padding_is_trailing (L : ℕ) :
    (∀ seqs : List (List ℤ),
      pad_sequences (some L) seqs = seqs.map (padSpecPost L)) ∧
    (∀ (parser : ContigParser) (folder : String) (paths : List String)
      (labels : List ℕ) (n_classes : Option ℕ) (ids : List ℕ),
      parser.ndims = 2 →
      data_generation parser folder paths labels (some L) n_classes ids =
        some (BatchX.x2 ((ids.map (fun id =>
            parser.parse2 id (joinPath folder (paths.getD id emptyPath)))).map
              (fun contig => contig.map (padSpecPost L))),
          to_categorical n_classes (ids.map (fun id => labels.getD id 0)))) := by
  have hps : ∀ seqs : List (List ℤ),
      pad_sequences (some L) seqs = seqs.map (padSpecPost L) := by
    intro seqs
    simp only [pad_sequences, Option.getD_some]
    refine List.map_congr_left ?_
    intro s _
    by_cases h : s.length ≤ L
    · rw [padSpecPost, if_pos h, List.take_of_length_le h]
    · rw [padSpecPost, if_neg h]
      have h0 : L - s.length = 0 := by omega
      rw [h0, List.replicate_zero, List.append_nil]
  refine ⟨hps, ?_⟩
  intro parser folder paths labels n_classes ids h2
  rw [data_generation]
  rw [if_pos (Or.inr h2), if_neg (by omega)]
  rw [List.map_map]
  have : pad_sequences (some L) ∘ (fun id =>
      parser.parse2 id (joinPath folder (paths.getD id emptyPath))) =
      fun id => (parser.parse2 id (joinPath folder (paths.getD id emptyPath))).map
        (padSpecPost L) := by
    funext id
    exact hps _
  rw [this]
  simp [List.map_map, Function.comp]

/-- Witness for C7 at `sequence_length = 3` with one short and one long
sample, and a concrete 2-D parser. -/
theorem padding_is_trailing_witness :
    pad_sequences (some 3) [[(1:ℤ), 2], [1, 2, 3, 4]] =
      [[(1:ℤ), 2], [1, 2, 3, 4]].map (padSpecPost 3) ∧
    (demoParser2.ndims = 2 ∧
      data_generation demoParser2 demoFolder demoPaths demoLabels4 (some 3)
          (some 2) [0] =
        some (BatchX.x2 (([0].map (fun id =>
            demoParser2.parse2 id (joinPath demoFolder (demoPaths.getD id emptyPath)))).map
              (fun contig => contig.map (padSpecPost 3))),
          to_categorical (some 2) ([0].map (fun id => demoLabels4.getD id 0)))) :=
  ⟨(padding_is_trailing 3).1 [[(1:ℤ), 2], [1, 2, 3, 4]],
   by decide,
   (padding_is_trailing 3).2 demoParser2 demoFolder demoPaths demoLabels4
     (some 2) [0] (by decide)⟩

/-! ## More helper lemmas: sizes through `__data_generation`, and the epoch
invariant for a shuffling generator -/

theorem pad_sequences_length (maxlen : Option ℕ) (seqs : List (List ℤ)) :
    (pad_sequences maxlen seqs).length = seqs.length := by
  simp [pad_sequences]

theorem to_categorical_length (num_classes : Option ℕ) (ys : List ℕ) :
    (to_categorical num_classes ys).length = ys.length := by
  simp [to_categorical]

theorem data_generation_counts (parser : ContigParser) (folder : String)
    (paths : List String) (labels : List ℕ) (sequence_length : Option ℕ)
    (n_classes : Option ℕ) (ids : List ℕ) (X : BatchX) (y : List (List ℕ))
    (h : data_generation parser folder paths labels sequence_length n_classes ids
      = some (X, y)) :
    X.size = ids.length ∧ y.length = ids.length := by
  unfold data_generation at h
  by_cases h12 : parser.ndims = 1 ∨ parser.ndims = 2
  · rw [if_pos h12] at h
    by_cases h1 : parser.ndims = 1
    · rw [if_pos h1] at h
      injection h with h
      cases h
      constructor
      · simp [BatchX.size, pad_sequences_length]
      · simp [to_categorical_length]
    · rw [if_neg h1] at h
      injection h with h
      cases h
      constructor
      · simp [BatchX.size]
      · simp [to_categorical_length]
  · rw [if_neg h12] at h
    exact absurd h (by simp)

theorem epochIter_shuffle_spec {σ : Type} (f : σ → List ℕ → List ℕ × σ)
    (hf : ∀ s l, (f s l).1.Perm l) :
    ∀ (k : ℕ) (g : ContigDataGenerator σ) (s : σ), g.shuffle = true →
    g.rg = some s →
    ∃ p s',
      (epochIter f k (ContigDataGenerator.on_epoch_end f g)).indexes = some p ∧
      (epochIter f k (ContigDataGenerator.on_epoch_end f g)).rg = some s' ∧
      p.Perm (List.range g.labels.length) ∧
      (epochIter f k (ContigDataGenerator.on_epoch_end f g)).labels = g.labels ∧
      (epochIter f k (ContigDataGenerator.on_epoch_end f g)).batch_size = g.batch_size ∧
      (epochIter f k (ContigDataGenerator.on_epoch_end f g)).shuffle = true := by
  intro k
  induction k with
  | zero =>
      intro g s hs hrg
      rw [epochIter, on_epoch_end_shuffle f g s hs hrg]
      exact ⟨_, _, rfl, rfl, hf s _, rfl, rfl, hs⟩
  | succ k ih =>
      intro g s hs hrg
      have hg' := on_epoch_end_shuffle f g s hs hrg
      have hs' : (ContigDataGenerator.on_epoch_end f g).shuffle = true := by
        rw [hg']; exact hs
      have hrg' : (ContigDataGenerator.on_epoch_end f g).rg =
          some ((f s (List.range g.labels.length)).2) := by rw [hg']
      have hl' : (ContigDataGenerator.on_epoch_end f g).labels = g.labels := by
        rw [hg']
      have hb' : (ContigDataGenerator.on_epoch_end f g).batch_size = g.batch_size := by
        rw [hg']
      obtain ⟨p, s', h1, h2, h3, h4, h5, h6⟩ :=
        ih (ContigDataGenerator.on_epoch_end f g) _ hs' hrg'
      rw [hl'] at h3 h4
      rw [hb'] at h5
      exact ⟨p, s', h1, h2, h3, h4, h5, h6⟩

/-! ## Claim C4 -/

/-- Claim C4: in every epoch of a shuffling generator, the epoch length is
`floor(len(labels) / batch_size)`; every batch whose index is below that
length consists of exactly `batch_size` sample indices, and the generated
data for it carries exactly `batch_size` feature rows and `batch_size`
one-hot label rows; in the 33-samples / batch-size-16 scenario the epoch
holds exactly 2 batches, so the third batch index (2) is outside the valid
range of epoch batch indices. -/
theorem epoch_length_and_full_batches (σ : Type) (f : σ → List ℕ → List ℕ × σ)
    (hf : ∀ s l, (f s l).1.Perm l) (mkRng : Option ℕ → σ) (paths : List String)
    (labels : List ℕ) (folder : String) (parser : ContigParser)
    (batch_size : ℕ) (sequence_length : Option ℕ) (n_classes : Option ℕ)
    (seed : Option ℕ) (k : ℕ) :
    (epochIter f k (ContigDataGenerator.init f mkRng paths labels folder parser
      batch_size sequence_length n_classes true seed)).len =
        labels.length / batch_size ∧
    (∀ index, index < (epochIter f k (ContigDataGenerator.init f mkRng paths
        labels folder parser batch_size sequence_length n_classes true seed)).len →
      (∃ b, (epochIter f k (ContigDataGenerator.init f mkRng paths labels folder
          parser batch_size sequence_length n_classes true seed)).getitemIdxs index
            = some b ∧ b.length = batch_size) ∧
      (∀ X y, (epochIter f k (ContigDataGenerator.init f mkRng paths labels folder
          parser batch_size sequence_length n_classes true seed)).getitem index
            = some (X, y) → X.size = batch_size ∧ y.length = batch_size)) ∧
    (labels.length = 33 → batch_size = 16 →
      (epochIter f k (ContigDataGenerator.init f mkRng paths labels folder parser
        batch_size sequence_length n_classes true seed)).len = 2 ∧
      ¬ (2 < (epochIter f k (ContigDataGenerator.init f mkRng paths labels folder
        parser batch_size sequence_length n_classes true seed)).len)) := by
  obtain ⟨p, s', hidx, hrg, hperm, hlab, hbs, hsh⟩ :=
    epochIter_shuffle_spec f hf k
      { paths := paths, labels := labels, folder := folder, parser := parser,
        batch_size := batch_size, sequence_length := sequence_length,
        n_classes := n_classes, shuffle := true,
        rg := some (mkRng seed), indexes := none }
      (mkRng seed) rfl rfl
  have hinit : ContigDataGenerator.init f mkRng paths labels folder parser
      batch_size sequence_length n_classes true seed =
      ContigDataGenerator.on_epoch_end f
      { paths := paths, labels := labels, folder := folder, parser := parser,
        batch_size := batch_size, sequence_length := sequence_length,
        n_classes := n_classes, shuffle := true,
        rg := some (mkRng seed), indexes := none } := by
    unfold ContigDataGenerator.init
    rfl
  rw [hinit]
  have hplen : p.length = labels.length := by
    rw [hperm.length_eq, List.length_range]
  have hlen : (epochIter f k (ContigDataGenerator.on_epoch_end f
      { paths := paths, labels := labels, folder := folder, parser := parser,
        batch_size := batch_size, sequence_length := sequence_length,
        n_classes := n_classes, shuffle := true,
        rg := some (mkRng seed), indexes := none })).len =
      labels.length / batch_size := by
    rw [ContigDataGenerator.len, hlab, hbs]
  refine ⟨hlen, ?_, ?_⟩
  · intro index hindex
    rw [hlen] at hindex
    have hbspos : 0 < batch_size := by
      rcases Nat.eq_zero_or_pos batch_size with h0 | h0
      · rw [h0] at hindex
        simp at hindex
      · exact h0
    have hmul : (index + 1) * batch_size ≤ labels.length :=
      (Nat.le_div_iff_mul_le hbspos).1 (Nat.succ_le_of_lt hindex)
    have hslice : batch_size ≤ p.length - index * batch_size := by
      rw [hplen]
      rw [Nat.succ_mul] at hmul
      omega
    have hslicelen : ((p.drop (index * batch_size)).take batch_size).length
        = batch_size := by
      rw [List.length_take, List.length_drop]
      omega
    constructor
    · refine ⟨(p.drop (index * batch_size)).take batch_size, ?_, hslicelen⟩
      rw [ContigDataGenerator.getitemIdxs, hidx, hbs]
    · intro X y hXy
      rw [ContigDataGenerator.getitem, hidx, hbs] at hXy
      obtain ⟨hX, hy⟩ := data_generation_counts _ _ _ _ _ _ _ _ _ hXy
      rw [hslicelen] at hX hy
      exact ⟨hX, hy⟩
  · intro h33 h16
    rw [hlen, h33, h16]
    exact ⟨rfl, by omega⟩

/-- Witness for C4: the 33-samples, batch-size-16 scenario at the first
epoch — 2 batches per epoch, both of 16 indices, and batch index 2 is out of
the valid range. -/
theorem epoch_length_and_full_batches_witness :
    (epochIter idShuffle 0 (ContigDataGenerator.init idShuffle demoMkRng
      demoPaths demoLabels33 demoFolder demoParser1 16 none (some 2) true
      (some 42))).len = 2 ∧
    ¬ (2 < (epochIter idShuffle 0 (ContigDataGenerator.init idShuffle demoMkRng
      demoPaths demoLabels33 demoFolder demoParser1 16 none (some 2) true
      (some 42))).len) ∧
    (∃ b, (epochIter idShuffle 0 (ContigDataGenerator.init idShuffle demoMkRng
      demoPaths demoLabels33 demoFolder demoParser1 16 none (some 2) true
      (some 42))).getitemIdxs 0 = some b ∧ b.length = 16) := by
  have h := epoch_length_and_full_batches ℕ idShuffle
    (fun s l => List.Perm.refl l) demoMkRng demoPaths demoLabels33 demoFolder
    demoParser1 16 none (some 2) (some 42) 0
  obtain ⟨h2, hnr⟩ := h.2.2 (by decide) rfl
  exact ⟨h2, hnr, (h.2.1 0 (by rw [h2]; decide)).1⟩

/-! ## Claim C6 -/

theorem slices_disjoint_of_nodup (p : List ℕ) (hp : p.Nodup) (bs i j : ℕ)
    (hij : i ≠ j) :
    List.Disjoint ((p.drop (i * bs)).take bs) ((p.drop (j * bs)).take bs) := by
  have main : ∀ a b : ℕ, a < b →
      List.Disjoint ((p.drop (a * bs)).take bs) ((p.drop (b * bs)).take bs) := by
    intro a b hab
    have h1 : a * bs + bs ≤ b * bs := by
      have h := Nat.mul_le_mul_right bs (Nat.succ_le_of_lt hab)
      rw [Nat.succ_mul] at h
      exact h
    have hsub1 : (p.drop (a * bs)).take bs ⊆ p.take (a * bs + bs) := by
      rw [List.take_add]
      exact List.subset_append_right _ _
    have hsub2 : (p.drop (b * bs)).take bs ⊆ p.drop (b * bs) :=
      List.take_subset _ _
    have hd : List.Disjoint (p.take (a * bs + bs)) (p.drop (b * bs)) :=
      List.disjoint_take_drop hp h1
    exact fun x hx hx2 => hd (hsub1 hx) (hsub2 hx2)
  rcases Nat.lt_or_ge i j with h | h
  · exact main i j h
  · have hji : j < i := by omega
    exact fun x hx hx2 => main j i hji hx2 hx

/-- Claim C6: within any single epoch of a shuffling generator, the index
sets produced by `__getitem__` for two distinct batch indices are disjoint —
each batch is a distinct contiguous slice of one duplicate-free permutation
of all sample indices. -/
theorem epoch_batches_pairwise_disjoint (σ : Type) (f : σ → List ℕ → List ℕ × σ)
    (hf : ∀ s l, (f s l).1.Perm l) (mkRng : Option ℕ → σ) (paths : List String)
    (labels : List ℕ) (folder : String) (parser : ContigParser)
    (batch_size : ℕ) (sequence_length : Option ℕ) (n_classes : Option ℕ)
    (seed : Option ℕ) (k i j : ℕ) (bi bj : List ℕ) (hij : i ≠ j)
    (hi : (epochIter f k (ContigDataGenerator.init f mkRng paths labels folder
      parser batch_size sequence_length n_classes true seed)).getitemIdxs i
        = some bi)
    (hj : (epochIter f k (ContigDataGenerator.init f mkRng paths labels folder
      parser batch_size sequence_length n_classes true seed)).getitemIdxs j
        = some bj) :
    List.Disjoint bi bj := by
  obtain ⟨p, s', hidx, hrg, hperm, hlab, hbs, hsh⟩ :=
    epochIter_shuffle_spec f hf k
      { paths := paths, labels := labels, folder := folder, parser := parser,
        batch_size := batch_size, sequence_length := sequence_length,
        n_classes := n_classes, shuffle := true,
        rg := some (mkRng seed), indexes := none }
      (mkRng seed) rfl rfl
  have hinit : ContigDataGenerator.init f mkRng paths labels folder parser
      batch_size sequence_length n_classes true seed =
      ContigDataGenerator.on_epoch_end f
      { paths := paths, labels := labels, folder := folder, parser := parser,
        batch_size := batch_size, sequence_length := sequence_length,
        n_classes := n_classes, shuffle := true,
        rg := some (mkRng seed), indexes := none } := by
    unfold ContigDataGenerator.init
    rfl
  rw [hinit, ContigDataGenerator.getitemIdxs, hidx, hbs] at hi hj
  injection hi with hi
  injection hj with hj
  have hp : p.Nodup := hperm.nodup_iff.2 (List.nodup_range _)
  rw [← hi, ← hj]
  exact slices_disjoint_of_nodup p hp batch_size i j hij

/-- Witness for C6: with 4 samples and batch size 2, the first and second
batches of the first epoch are disjoint index sets. -/
theorem epoch_batches_pairwise_disjoint_witness :
    List.Disjoint [0, 1] [2, 3] :=
  epoch_batches_pairwise_disjoint ℕ idShuffle (fun s l => List.Perm.refl l)
    demoMkRng demoPaths demoLabels4 demoFolder demoParser1 2 none none
    (some 7) 0 0 1 [0, 1] [2, 3] (by decide) (by decide) (by decide)

/-! ## Claim C5 -/

/-- Claim C5: shuffling is deterministic.  Two generators constructed with
the same seed and the same inputs coincide after every number of epoch
resets (hence produce identical batch index slices in every epoch), and an
epoch reset advances the generator's random state by exactly one `shuffle`
call on the state carried over from construction — the state is seeded once
(`mkRng` is consulted only at construction) and never re-seeded at an epoch
boundary. -/
theorem shuffling_deterministic_same_seed (σ : Type) (f : σ → List ℕ → List ℕ × σ)
    (mkRng : Option ℕ → σ) (paths : List String) (labels : List ℕ)
    (folder : String) (parser : ContigParser) (batch_size : ℕ)
    (sequence_length : Option ℕ) (n_classes : Option ℕ)
    (seed1 seed2 : Option ℕ) (hseed : seed1 = seed2) :
    (∀ k index,
      epochIter f k (ContigDataGenerator.init f mkRng paths labels folder parser
        batch_size sequence_length n_classes true seed1) =
      epochIter f k (ContigDataGenerator.init f mkRng paths labels folder parser
        batch_size sequence_length n_classes true seed2) ∧
      (epochIter f k (ContigDataGenerator.init f mkRng paths labels folder parser
        batch_size sequence_length n_classes true seed1)).getitemIdxs index =
      (epochIter f k (ContigDataGenerator.init f mkRng paths labels folder parser
        batch_size sequence_length n_classes true seed2)).getitemIdxs index) ∧
    (∀ (g : ContigDataGenerator σ) (s : σ), g.shuffle = true → g.rg = some s →
      (ContigDataGenerator.on_epoch_end f g).rg =
        some ((f s (List.range g.labels.length)).2) ∧
      (ContigDataGenerator.on_epoch_end f g).indexes =
        some ((f s (List.range g.labels.length)).1)) := by
  subst hseed
  refine ⟨fun k index => ⟨rfl, rfl⟩, ?_⟩
  intro g s hs hrg
  rw [on_epoch_end_shuffle f g s hs hrg]
  exact ⟨rfl, rfl⟩

/-- Witness for C5 at seed 42 after 3 epoch resets, plus the state-threading
part at a concrete mid-lifetime generator state. -/
theorem shuffling_deterministic_same_seed_witness :
    (epochIter idShuffle 3 (ContigDataGenerator.init idShuffle demoMkRng
      demoPaths demoLabels4 demoFolder demoParser1 2 none none true (some 42)) =
    epochIter idShuffle 3 (ContigDataGenerator.init idShuffle demoMkRng
      demoPaths demoLabels4 demoFolder demoParser1 2 none none true (some 42))) ∧
    ((ContigDataGenerator.on_epoch_end idShuffle demoGenState).rg =
      some ((idShuffle 5 (List.range demoGenState.labels.length)).2) ∧
    (ContigDataGenerator.on_epoch_end idShuffle demoGenState).indexes =
      some ((idShuffle 5 (List.range demoGenState.labels.length)).1)) :=
  ⟨((shuffling_deterministic_same_seed ℕ idShuffle demoMkRng demoPaths
      demoLabels4 demoFolder demoParser1 2 none none (some 42) (some 42)
      rfl).1 3 0).1,
   (shuffling_deterministic_same_seed ℕ idShuffle demoMkRng demoPaths
      demoLabels4 demoFolder demoParser1 2 none none (some 42) (some 42)
      rfl).2 demoGenState 5 rfl rfl⟩

/-! ## Softmax and averaging lemmas for the model -/

theorem softmax_nonneg {n : ℕ} (v : Fin n → ℝ) (i : Fin n) : 0 ≤ softmax v i :=
  div_nonneg (Real.exp_pos _).le (Finset.sum_nonneg fun _ _ => (Real.exp_pos _).le)

theorem softmax_sum_one {n : ℕ} (hn : 0 < n) (v : Fin n → ℝ) :
    ∑ i, softmax v i = 1 := by
  have hpos : 0 < ∑ j, Real.exp (v j) :=
    Finset.sum_pos (fun j _ => Real.exp_pos _) ⟨⟨0, hn⟩, Finset.mem_univ _⟩
  unfold softmax
  rw [← Finset.sum_div]
  exact div_self (ne_of_gt hpos)

theorem sum_fin_list_swap {n : ℕ} (l : List (Fin n → ℝ)) :
    ∑ i, (l.map (fun v => v i)).sum = (l.map (fun v => ∑ i, v i)).sum := by
  induction l with
  | nil => simp
  | cons h t ih => simp [Finset.sum_add_distrib, ih]

theorem globalAveragePool_prob {n : ℕ} (ws : List (Fin n → ℝ)) (hne : ws ≠ [])
    (h0 : ∀ w ∈ ws, ∀ i, 0 ≤ w i) (h1 : ∀ w ∈ ws, ∑ i, w i = 1) :
    (∀ i, 0 ≤ globalAveragePool ws i) ∧ ∑ i, globalAveragePool ws i = 1 := by
  have hlen : (0 : ℝ) < ws.length :=
    Nat.cast_pos.2 (List.length_pos.2 hne)
  constructor
  · intro i
    apply div_nonneg
    · apply List.sum_nonneg
      intro x hx
      obtain ⟨w, hw, rfl⟩ := List.mem_map.1 hx
      exact h0 w hw i
    · exact hlen.le
  · unfold globalAveragePool
    rw [← Finset.sum_div, sum_fin_list_swap]
    have hmap : ws.map (fun v => ∑ i, v i) = ws.map (fun _ => (1 : ℝ)) :=
      List.map_congr_left (fun w hw => h1 w hw)
    rw [hmap]
    simp only [List.map_const', List.sum_replicate, nsmul_eq_mul, mul_one]
    exact div_self (ne_of_gt hlen)

theorem enumFrom_map_pair {α β : Type} (f : α → β) (n : ℕ) (l : List α) :
    (l.map f).enumFrom n = (l.enumFrom n).map (fun p => (p.1, f p.2)) := by
  induction l generalizing n with
  | nil => rfl
  | cons a t ih => simp [List.enumFrom, ih]

theorem enum_map_pair {α β : Type} (f : α → β) (l : List α) :
    (l.map f).enum = l.enum.map (fun p => (p.1, f p.2)) :=
  enumFrom_map_pair f 0 l

theorem globalAveragePool_singleton {n : ℕ} (v : Fin n → ℝ) :
    globalAveragePool [v] = v := by
  funext i
  simp [globalAveragePool]

/-- `__transform_contig` is the average, over the enumerated nodes, of the
per-node pipeline outputs. -/
theorem transform_contig_eq_vote (m : CNNModel) (training : Bool)
    (keep : ℕ → Fin dense_units_2 → Bool)
    (contig : List (List (Fin m.voc_size))) :
    m.transform_contig training keep contig =
      globalAveragePool (contig.enum.map (fun p =>
        m.nodeOutput training (keep p.1) p.2)) := by
  simp only [CNNModel.transform_contig, CNNModel.nodeOutput, resizing1D_call,
    masked_lengths, embedMask, List.map_map, List.zip_map', enum_map_pair,
    List.length_map, Function.comp_def]

/-! ## Claim C1 -/

/-- Claim C1: for every contig with at least one node (and a classifier with
at least one class), `__transform_contig` outputs a normalized probability
vector — every entry nonnegative, entries summing to 1 — in both training
and inference mode, and for a single-node contig the average-over-nodes vote
equals that node's softmax pipeline output. -/
theorem transform_contig_probability_vector (m : CNNModel) (training : Bool)
    (keep : ℕ → Fin dense_units_2 → Bool)
    (contig : List (List (Fin m.voc_size))) (hne : contig ≠ [])
    (hcls : 0 < m.n_classes) :
    (∀ i, 0 ≤ m.transform_contig training keep contig i) ∧
    (∑ i, m.transform_contig training keep contig i) = 1 ∧
    (∀ node, contig = [node] →
      m.transform_contig training keep contig =
        m.nodeOutput training (keep 0) node) := by
  have hlen : (contig.enum.map (fun p =>
      m.nodeOutput training (keep p.1) p.2)).length = contig.length := by
    simp
  have hwsne : contig.enum.map (fun p =>
      m.nodeOutput training (keep p.1) p.2) ≠ [] := by
    intro h
    have h0 : contig.length = 0 := by rw [← hlen, h]; rfl
    exact hne (List.length_eq_zero.mp h0)
  have hmem0 : ∀ w ∈ contig.enum.map (fun p =>
      m.nodeOutput training (keep p.1) p.2), ∀ i, 0 ≤ w i := by
    intro w hw i
    obtain ⟨p, hp, rfl⟩ := List.mem_map.1 hw
    exact softmax_nonneg _ i
  have hmem1 : ∀ w ∈ contig.enum.map (fun p =>
      m.nodeOutput training (keep p.1) p.2), ∑ i, w i = 1 := by
    intro w hw
    obtain ⟨p, hp, rfl⟩ := List.mem_map.1 hw
    exact softmax_sum_one hcls _
  obtain ⟨hn, hs⟩ := globalAveragePool_prob _ hwsne hmem0 hmem1
  refine ⟨?_, ?_, ?_⟩
  · intro i
    rw [transform_contig_eq_vote]
    exact hn i
  · rw [transform_contig_eq_vote]
    exact hs
  · intro node hnode
    subst hnode
    rw [transform_contig_eq_vote]
    simp only [List.enum_cons, List.enumFrom_nil, List.map_cons, List.map_nil]
    exact globalAveragePool_singleton _

/-- Witness for C1 at a concrete two-class model and a concrete single-node
contig. -/
theorem transform_contig_probability_vector_witness :
    (demoContig ≠ [] ∧ 0 < demoModel.n_classes) ∧
    ((∀ i, 0 ≤ demoModel.transform_contig false demoKeep demoContig i) ∧
     (∑ i, demoModel.transform_contig false demoKeep demoContig i) = 1 ∧
     (∀ node, demoContig = [node] →
       demoModel.transform_contig false demoKeep demoContig =
         demoModel.nodeOutput false (demoKeep 0) node)) :=
  ⟨⟨by decide, by decide⟩,
   transform_contig_probability_vector demoModel false demoKeep demoContig
     (by decide) (by decide)⟩

/-! ## Claim C2 -/

/-- Claim C2 evaluated at the failing input: a model constructed with
`n_classes = 3` applied to a nonempty batch produces no output at all — the
`tf.map_fn` output signature in `CNNModel.call` is hard-coded to shape `[2]`,
so the batch probability matrix promised by the docstring
(`inputs.shape[0] * n_classes`) is never returned when `n_classes ≠ 2`. -/
theorem call_fails_for_three_classes :
    threeClassModel.n_classes = 3 ∧
    CNNModel.call threeClassModel false demoKeep2 [demoContig] = none := by
  constructor
  · rfl
  · rw [CNNModel.call, if_neg]
    intro h
    rcases h with h | h
    · simp [demoContig] at h
    · exact absurd h (by decide)

/-! ## Claim C9 -/

/-- Claim C9 evaluated at the failing input: rebuilding any `CNNModel` from
its own `get_config` output fails, for every choice of `custom_objects` and
of initializer-produced weights — `get_config` stores the bare
`layer.get_config()` dictionaries, and the per-layer
`tf.keras.layers.deserialize` call inside `from_config` rejects a bare
dictionary (`ValueError: Improper config format`) already at the first
layer, so the round trip never returns a model; in particular at the
concrete default two-class model with no custom objects. -/
theorem from_config_get_config_always_fails :
    (∀ (m : CNNModel) (custom_objects : List String)
        (w : ModelWeights m.voc_size m.n_classes),
      CNNModel.from_config m.get_config custom_objects w = none) ∧
    CNNModel.from_config demoModel.get_config [] demoModel.weights = none := by
  have hmain : ∀ (m : CNNModel) (custom_objects : List String)
      (w : ModelWeights m.voc_size m.n_classes),
      CNNModel.from_config m.get_config custom_objects w = none := by
    intro m custom_objects w
    rw [CNNModel.from_config, if_neg]
    intro hall
    rw [List.all_eq_true] at hall
    have hmem : (⟨"embed_layer", LayerSpec.embedding
        (CNNModel.rebuild m.get_config w).voc_size embed_dim⟩ : KLayer) ∈
        (CNNModel.rebuild m.get_config w).layerList := by
      rw [CNNModel.layerList]
      exact List.mem_cons_self _ _
    have hhead := hall _ hmem
    simp only at hhead
    split at hhead
    · exact Bool.noConfusion hhead
    · rename_i entry hf
      have hmementry : entry ∈ (CNNModel.get_config m).layers.reverse :=
        List.mem_of_find?_eq_some hf
      rw [List.mem_reverse] at hmementry
      rw [CNNModel.get_config] at hmementry
      obtain ⟨l1, _, rfl⟩ := List.mem_map.1 hmementry
      exact Bool.noConfusion hhead
  exact ⟨hmain, hmain demoModel [] demoModel.weights⟩
